import Mathlib

/-!
Verification development for the xpwebapi client runtime
(`xpwebapi/api.py`, `xpwebapi/ws.py`, `xpwebapi/rest.py`, `xpwebapi/beacon.py`).

The Python classes are shallowly embedded: mutable objects become explicit
state records, methods become pure functions returning the updated record
together with their result, and wire traffic is reported as explicit values
(a `Bool` "message sent" flag, or a list of emitted events).  Python `int`
is embedded as `Int` (or `Nat` where the source can only produce naturals),
byte strings as `List Nat`, and fallible operations as `Option`/`Except`.
-/

/-! ## DatarefMeta — api.py lines 67-120

`DatarefMeta.__init__` sets `indices = []`, `indices_history = []` and
`_indices_requested = False`.  The underscore field is renamed
`indicesRequested` here.  The inert meta data fields (`name`, `ident`,
`value_type`, `is_writable`) are carried along for fidelity. -/

structure DatarefMeta where
  name : String
  ident : Int
  value_type : String
  is_writable : Bool
  indices : List Int
  indices_history : List (List Int)
  indicesRequested : Bool
deriving Repr, DecidableEq

namespace DatarefMeta

/-- Embeds `DatarefMeta.__init__(name, value_type, is_writable, id)`:
indices start empty, history starts empty, `_indices_requested = False`. -/
def mk_meta (name : String) (ident : Int) (value_type : String)
    (is_writable : Bool) : DatarefMeta :=
  { name := name, ident := ident, value_type := value_type
    is_writable := is_writable, indices := [], indices_history := []
    indicesRequested := false }

/-- Embeds `DatarefMeta.is_array`: value type is one of the two array types. -/
def is_array (m : DatarefMeta) : Bool :=
  m.value_type = "int_array" || m.value_type = "float_array"

/-- Embeds `DatarefMeta.save_indices` (api.py 86-89): append a copy of `indices`
to `indices_history`, but only when `_indices_requested` is true. -/
def save_indices (m : DatarefMeta) : DatarefMeta :=
  if m.indicesRequested then
    { m with indices_history := m.indices_history ++ [m.indices] }
  else m

/-- Embeds `DatarefMeta.last_indices` (api.py 91-95): last element of the history,
or `[]` when the history is empty. -/
def last_indices (m : DatarefMeta) : List Int :=
  if m.indices_history.length > 0 then m.indices_history.getLast! else []

/-- Embeds `DatarefMeta.append_index` (api.py 97-111): append `i` if absent, then
sort the list in place (`list.sort` is an ascending sort). -/
def append_index (m : DatarefMeta) (i : Int) : DatarefMeta :=
  if i ∈ m.indices then m
  else { m with indices := (m.indices ++ [i]).insertionSort (· ≤ ·) }

/-- Embeds `DatarefMeta.remove_index` (api.py 113-120): remove the first occurrence
of `i` when present, otherwise only a warning is logged. -/
def remove_index (m : DatarefMeta) (i : Int) : DatarefMeta :=
  if i ∈ m.indices then { m with indices := m.indices.erase i }
  else m

end DatarefMeta

/-! ## Bulk subscription bookkeeping — ws.py 423-463

`register_bulk_dataref_value_event` handles each array-dataref group by
first calling `meta.save_indices()` and then, for each grouped element
index, `meta.append_index(i)` (subscribe, `on=True`) or
`meta.remove_index(i)` (unsubscribe, `on=False`).  The function below is
that loop body for one identifier group, acting on the shared meta. -/

def register_bulk_array_group (m : DatarefMeta) (idxs : List Int)
    (subscribeOn : Bool) : DatarefMeta :=
  idxs.foldl (fun acc i =>
      if subscribeOn then acc.append_index i else acc.remove_index i)
    m.save_indices

/-! ## Inbound array-payload reconciliation — ws.py 688-716

In `ws_listener`, the `dataref_update_values` branch for an array dataref
compares the payload length with the current index list; on mismatch it
consults `meta.last_indices()` (one single history entry) and either zips
the payload against it or drops the update with a warning.  On a length
match the payload is zipped against the indices in use and one
`ON_DATAREF_UPDATE` callback is fired per `(index, value)` pair.

`ws_array_update` returns `some pairs` for the list of `(index, value)`
callback arguments fired, and `none` when the update is dropped. -/

def ws_array_update (m : DatarefMeta) (value : List Int) :
    Option (List (Int × Int)) :=
  let current_indices := m.indices
  if value.length ≠ current_indices.length then
    let last := m.last_indices
    if value.length ≠ last.length then
      none
    else
      some (last.zip value)
  else
    some (current_indices.zip value)

/-! ## Dataref — api.py 388-577

The mutable per-object state of `Dataref`: `_monitored` (a Python int,
initialized to 0), `_new_value` (the pending write), `auto_save`, the
parsed `path`/`index`, and the results of the `ident` / `is_array` meta
lookups (`none` models a dataref whose meta data could not be resolved).
The value type is a parameter `α` since the runtime never inspects it. -/

structure Dataref (α : Type) where
  path : String
  index : Option Int
  monitored : Int
  newValue : Option α
  autoSave : Bool
  ident : Option Int
  isArray : Bool
deriving Repr

namespace Dataref

/-- Embeds `Dataref.__init__`: `_monitored = 0`, `_new_value = None`. -/
def mk_dataref (α : Type) (path : String) (ident : Option Int)
    (isArray : Bool) (index : Option Int) (autoSave : Bool) : Dataref α :=
  { path := path, index := index, monitored := 0, newValue := none
    autoSave := autoSave, ident := ident, isArray := isArray }

/-- Embeds `Dataref.is_monitored`: `_monitored > 0`. -/
def is_monitored (d : Dataref α) : Bool := d.monitored > 0

/-- Embeds `Dataref.inc_monitor` (api.py 507-509). -/
def inc_monitor (d : Dataref α) : Dataref α :=
  { d with monitored := d.monitored + 1 }

/-- Embeds `Dataref.dec_monitor` (api.py 511-521): decrement only when positive
(otherwise log a warning), and return whether the dataref is still
monitored after the call. -/
def dec_monitor (d : Dataref α) : Dataref α × Bool :=
  let d1 := if d.monitored > 0 then { d with monitored := d.monitored - 1 } else d
  (d1, d1.monitored > 0)

/-- Embeds the `Dataref.value` getter (api.py 430-433): the locally cached pending
value when set, otherwise the active transport's fetch
(`self.api.dataref_value(self)`, passed here as `fetch`). -/
def value_get (d : Dataref α) (fetch : α) : α :=
  match d.newValue with
  | some v => v
  | none => fetch

/-- Embeds the `Dataref.value` setter (api.py 435-440): store the pending value and
issue a write exactly when `auto_save` is set.  The returned `Bool` is
whether `self.write()` was called. -/
def value_set (d : Dataref α) (v : Option α) : Dataref α × Bool :=
  ({ d with newValue := v }, d.autoSave)

end Dataref

/-! ## monitor_dataref / unmonitor_dataref — ws.py 830-967

`Dataref.monitor()` calls `XPWebsocketAPI.monitor_dataref`, which calls
`monitor_datarefs` with the single-entry dict `{dataref.path: dataref}`.
The functions below are the `monitor_datarefs` / `unmonitor_datarefs`
bodies specialized to that one-element dict: the `Bool` result is whether
a bulk (un)subscribe wire request was sent (`bulk` nonempty implies
`register_bulk_dataref_value_event` sends one message, since the client
is connected and the dataref list is nonempty). -/

def monitor_dataref (connected : Bool) (d : Dataref α) : Dataref α × Bool :=
  if ¬connected then (d, false)
  else
    let inBulk := ¬d.is_monitored && d.ident.isSome
    (d.inc_monitor, inBulk)

def unmonitor_dataref (connected : Bool) (d : Dataref α) : Dataref α × Bool :=
  if ¬connected then (d, false)
  else if d.is_monitored then
    let r := d.dec_monitor
    if ¬r.2 then (r.1, r.1.ident.isSome) else (r.1, false)
  else (d, false)

/-! Finite sequences of `inc_monitor` / `dec_monitor` calls on one
`Dataref` object, for the ref-count invariant. -/

inductive MonOp where
  | mon : MonOp
  | unmon : MonOp
deriving Repr, DecidableEq

def applyMonOp (d : Dataref α) (op : MonOp) : Dataref α :=
  match op with
  | .mon => d.inc_monitor
  | .unmon => d.dec_monitor.1

def runMonOps (d : Dataref α) (ops : List MonOp) : Dataref α :=
  ops.foldl applyMonOp d

/-! ## Beacon packet decoding — beacon.py 247-306

`XPBeaconMonitor.get_beacon` receives a UDP packet (embedded as a
`List Nat` of byte values) from a sender, checks the 5-byte magic header
`b"BECN\x00"`, unpacks the little-endian record `"<BBiiIH"` from
`packet[5:21]`, extracts the null-terminated hostname from
`packet[21:-1]`, and either stores decoded `BeaconData` or signals the
version as unsupported.

Decode outcomes (the three observable behaviours of the source):
* `badMagic` — the magic mismatches; the source logs "Unknown packet"
  warnings and returns `None` (`self.data` was reset to `None`), never
  building `BeaconData`;
* `shortPacket` — the magic matches but `packet[5:21]` has fewer than 16
  bytes, so `struct.unpack` raises a generic `struct.error`;
* `versionNotSupported` — raised as the distinct exception
  `XPlaneVersionNotSupported` when the unpacked versions fall outside
  `major == 1 and minor <= 2 and host_id == 1`. -/

inductive BeaconError where
  | badMagic : BeaconError
  | shortPacket : BeaconError
  | versionNotSupported : BeaconError
deriving Repr, DecidableEq

/-- Embeds `BeaconData` (beacon.py 54-62); `host` is the UDP sender address,
`hostname` is kept as its byte string. -/
structure BeaconData where
  host : String
  port : Nat
  hostname : List Nat
  xplane_version : Int
  role : Nat
deriving Repr, DecidableEq

/-- The 5 bytes of `b"BECN\x00"`. -/
def beaconMagic : List Nat := [66, 69, 67, 78, 0]

/-- Reads `packet[i]` as a byte, 0 out of range (all uses are guarded by the
packet-length check that `struct.unpack` performs). -/
def byteAt (packet : List Nat) (i : Nat) : Nat := packet.getD i 0

/-- Little-endian `uint16` from two bytes (`H` in `"<BBiiIH"`). -/
def le16 (b0 b1 : Nat) : Nat := b0 + 256 * b1

/-- Little-endian `uint32` from four bytes (`I` in `"<BBiiIH"`). -/
def le32 (b0 b1 b2 b3 : Nat) : Nat := b0 + 256 * (b1 + 256 * (b2 + 256 * b3))

/-- Reinterpret a `uint32` as the signed `int32` (`i` in `"<BBiiIH"`). -/
def toInt32 (u : Nat) : Int :=
  if u < 2 ^ 31 then (u : Int) else (u : Int) - 2 ^ 32

/-- Hostname extraction (beacon.py 289-290): `hostname = packet[21:-1]`
then `hostname[0:hostname.find(0)]` — truncate at the first NUL byte; when
no NUL remains, `find` returns `-1` and the slice drops the final byte. -/
def beacon_hostname (packet : List Nat) : List Nat :=
  let field := (packet.drop 21).dropLast
  if 0 ∈ field then field.takeWhile (fun b => b ≠ 0) else field.dropLast

/-- Embeds the `get_beacon` decode step (beacon.py 253-296) on a received packet. -/
def get_beacon_decode (sender : String) (packet : List Nat) :
    Except BeaconError BeaconData :=
  if packet.take 5 ≠ beaconMagic then
    .error .badMagic
  else if packet.length < 21 then
    .error .shortPacket
  else
    let beacon_major_version := byteAt packet 5
    let beacon_minor_version := byteAt packet 6
    let application_host_id :=
      toInt32 (le32 (byteAt packet 7) (byteAt packet 8) (byteAt packet 9) (byteAt packet 10))
    let xplane_version_number :=
      toInt32 (le32 (byteAt packet 11) (byteAt packet 12) (byteAt packet 13) (byteAt packet 14))
    let role := le32 (byteAt packet 15) (byteAt packet 16) (byteAt packet 17) (byteAt packet 18)
    let port := le16 (byteAt packet 19) (byteAt packet 20)
    if beacon_major_version = 1 ∧ beacon_minor_version ≤ 2 ∧ application_host_id = 1 then
      .ok { host := sender, port := port, hostname := beacon_hostname packet
            xplane_version := xplane_version_number, role := role }
    else
      .error .versionNotSupported

/-! ## Beacon packet encoding

Modelled from the spec: the repository contains no beacon encoder, only the
decoder above; spec §6 fixes the wire format (5-byte magic `"BECN\0"`, then
little-endian `uint8 majorVersion, uint8 minorVersion, int32 hostID,
int32 simVersion, uint32 role, uint16 port`, then a null-terminated
hostname string) and spec §8 requires encoding a synthetic valid packet. -/

def le16bytes (n : Nat) : List Nat := [n % 256, n / 256 % 256]

def le32bytes (n : Nat) : List Nat :=
  [n % 256, n / 256 % 256, n / 256 / 256 % 256, n / 256 / 256 / 256 % 256]

def int32bytes (v : Int) : List Nat := le32bytes (v % 2 ^ 32).toNat

/-- Modelled from the spec: encode beacon fields into a packet whose
hostname is null-terminated by a single NUL byte (spec §6 layout). -/
def encode_beacon (major minor : Nat) (hostId simVer : Int)
    (role port : Nat) (hostname : List Nat) : List Nat :=
  beaconMagic ++ [major, minor] ++ int32bytes hostId ++ int32bytes simVer
    ++ le32bytes role ++ le16bytes port ++ hostname ++ [0]

/-- Modelled from the spec: same encoding but with the hostname field
null-padded (at least two trailing NUL bytes), as X-Plane's fixed-size
`computer_name[strDIM]` buffer produces. -/
def encode_beacon_padded (major minor : Nat) (hostId simVer : Int)
    (role port : Nat) (hostname : List Nat) : List Nat :=
  beaconMagic ++ [major, minor] ++ int32bytes hostId ++ int32bytes simVer
    ++ le32bytes role ++ le16bytes port ++ hostname ++ [0, 0]

/-! ## Metadata cache reload — rest.py 235-284

`XPRestAPI.reload_caches`: unless forced, the reload is skipped when
`self._last_updated != 0`, the simulator uptime dataref
`sim/time/total_running_time_sec` has a value, and fewer than
`MINTIME_BETWEEN_RELOAD = 10` seconds of simulator uptime have elapsed.
Otherwise both caches are replaced by freshly loaded `Cache` objects
(`/datarefs` is always fetched; `/commands` only when the API version is
`"v2"`), and `_last_updated` is set to the current uptime.

State embedding: a cache object is `some g` where `g` is the value of
`fetchCount` when it was loaded (`none` models an invalidated cache slot,
and `some 0` a fresh unloaded `Cache`); `fetchCount` counts the
full-table `Cache.load` network fetches issued; `lastUpdated` is
`self._last_updated`; the simulator uptime reading (`int(currtime)`,
`None` when unavailable) is passed as `uptime`. -/

structure CacheState where
  lastUpdated : Int
  allDatarefs : Option Nat
  allCommands : Option Nat
  fetchCount : Nat
deriving Repr, DecidableEq

def reload_caches (s : CacheState) (force : Bool) (uptime : Option Int)
    (isV2 : Bool) : CacheState :=
  let MINTIME_BETWEEN_RELOAD : Int := 10
  let skip : Bool :=
    ¬force && s.lastUpdated ≠ 0 &&
      (match uptime with
       | some t => t - s.lastUpdated < MINTIME_BETWEEN_RELOAD
       | none => false)
  if skip then s
  else
    let fetchDatarefs := s.fetchCount + 1
    let fetchBoth := if isV2 then fetchDatarefs + 1 else fetchDatarefs
    { lastUpdated := match uptime with
        | some t => t
        | none => s.lastUpdated
      allDatarefs := some fetchDatarefs
      allCommands := if isV2 then some fetchBoth else some 0
      fetchCount := fetchBoth }

/-! ## Request-id correlation — ws.py 113-120 and 357-382

`next_req` increments `self.req_number` and returns it; `send` refuses
when not connected or when the payload is empty, otherwise it draws the
next request id, tags the payload with it, stores the placeholder
`self._requests[req_id] = None`, and sends the frame.  Outbound frames
are recorded as `(req_id, payload)` pairs; a pending entry is
`(req_id, none)` until a result frame resolves it. -/

structure WsClientState where
  connected : Bool
  reqNumber : Nat
  requests : List (Nat × Option Bool)
  sentFrames : List (Nat × List (String × String))
deriving Repr, DecidableEq

/-- All request ids this client has assigned so far (keys of `_requests`;
every sent frame's id is also stored there by `send`). -/
def assignedIds (s : WsClientState) : List Nat := s.requests.map (·.1)

/-- Embeds `XPWebsocketAPI.send` (ws.py 357-382). -/
def ws_send (s : WsClientState) (payload : List (String × String)) :
    WsClientState × Option Nat :=
  if ¬s.connected then (s, none)
  else if payload.length = 0 then (s, none)
  else
    let req_id := s.reqNumber + 1
    ({ connected := s.connected
       reqNumber := req_id
       requests := (req_id, none) :: s.requests
       sentFrames := (req_id, payload) :: s.sentFrames }, some req_id)

/-- The request-id bookkeeping invariant: every id ever assigned is at
most the current counter value. -/
def reqInv (s : WsClientState) : Prop :=
  ∀ j ∈ assignedIds s, j ≤ s.reqNumber

instance (s : WsClientState) : Decidable (reqInv s) := by
  unfold reqInv; infer_instance

/-- Fresh client state (`__init__`, ws.py 91-92): `req_number = 0`,
`_requests = {}`. -/
def initWsClient (connected : Bool) : WsClientState :=
  { connected := connected, reqNumber := 0, requests := [], sentFrames := [] }

/-! # Theorems -/

/-! ## Claim C9 — pending-write value caching -/

/-- C9: the `Dataref.value` getter returns the locally cached pending-write
value whenever one is set, and only otherwise delegates to the transport
fetch; the setter stores the value as the pending value and issues a write
exactly when `auto_save` is configured; consequently after assigning a
non-None value `v`, reading the value returns `v` for every possible
transport answer (the transport is not consulted). -/
theorem dataref_value_pending_write {α : Type} (d : Dataref α) (v : α)
    (fetch fetch2 : α) :
    Dataref.value_get (Dataref.value_set d (some v)).1 fetch = v ∧
    Dataref.value_get (Dataref.value_set d (some v)).1 fetch =
      Dataref.value_get (Dataref.value_set d (some v)).1 fetch2 ∧
    (Dataref.value_set d (some v)).2 = d.autoSave ∧
    Dataref.value_get { d with newValue := none } fetch = fetch ∧
    ∀ w : α, Dataref.value_get { d with newValue := some w } fetch = w := by
  refine ⟨rfl, rfl, rfl, rfl, fun w => rfl⟩

/-! ## Claim C10 — the monitor count is never negative -/

theorem applyMonOp_nonneg {α : Type} (d : Dataref α) (op : MonOp)
    (h : 0 ≤ d.monitored) : 0 ≤ (applyMonOp d op).monitored := by
  cases op with
  | mon =>
      show 0 ≤ d.monitored + 1
      omega
  | unmon =>
      simp only [applyMonOp, Dataref.dec_monitor]
      split
      · show 0 ≤ d.monitored - 1
        omega
      · exact h

theorem runMonOps_nonneg {α : Type} (ops : List MonOp) (d : Dataref α)
    (h : 0 ≤ d.monitored) : 0 ≤ (runMonOps d ops).monitored := by
  induction ops generalizing d with
  | nil => exact h
  | cons op ops ih =>
      simp only [runMonOps, List.foldl_cons] at *
      exact ih _ (applyMonOp_nonneg d op h)

/-- C10: the monitor count starts at 0 (`Dataref.__init__`), `inc_monitor`
increases it by exactly 1, `dec_monitor` decreases it by exactly 1 when it
is positive, and a `dec_monitor` call at 0 leaves it at 0 and returns
`False`; for every finite sequence of `inc_monitor`/`dec_monitor` calls the
count stays nonnegative. -/
theorem monitor_count_never_negative {α : Type} (d : Dataref α)
    (ops : List MonOp) (h : 0 ≤ d.monitored) :
    0 ≤ (runMonOps d ops).monitored ∧
    (Dataref.inc_monitor d).monitored = d.monitored + 1 ∧
    (0 < d.monitored → (Dataref.dec_monitor d).1.monitored = d.monitored - 1) ∧
    (d.monitored = 0 →
      (Dataref.dec_monitor d).1.monitored = 0 ∧ (Dataref.dec_monitor d).2 = false) ∧
    ∀ (path : String) (ident : Option Int) (isArray : Bool)
      (index : Option Int) (autoSave : Bool),
      (Dataref.mk_dataref α path ident isArray index autoSave).monitored = 0 := by
  refine ⟨runMonOps_nonneg ops d h, rfl, ?_, ?_, fun _ _ _ _ _ => rfl⟩
  · intro hpos
    simp [Dataref.dec_monitor, hpos]
  · intro h0
    constructor <;> simp [Dataref.dec_monitor, h0]

/-- Closed witness for C10: five mixed calls on a fresh dataref keep the
count nonnegative. -/
theorem monitor_count_never_negative_witness :
    0 ≤ (runMonOps (Dataref.mk_dataref Int "sim/x" (some 1) false none false)
          [.mon, .unmon, .unmon, .mon, .unmon]).monitored :=
  (monitor_count_never_negative
    (Dataref.mk_dataref Int "sim/x" (some 1) false none false)
    [.mon, .unmon, .unmon, .mon, .unmon] (by decide)).1

/-! ## Claim C3 — wire traffic only on the 0→1 and 1→0 transitions -/

/-- C3: on a connected client, `monitor()` sends a wire subscribe exactly
when the monitor count goes from 0 to 1, `unmonitor()` sends a wire
unsubscribe exactly when the count goes from 1 to 0, and a call whose count
is 1 or more both before and after sends nothing; the count is the only
state the decision depends on, so this holds under any interleaving of
calls. -/
theorem monitor_wire_traffic_on_transitions {α : Type} (d : Dataref α)
    (hid : d.ident.isSome = true) (hnn : 0 ≤ d.monitored) :
    ((monitor_dataref true d).2 = true ↔ d.monitored = 0) ∧
    (monitor_dataref true d).1.monitored = d.monitored + 1 ∧
    ((unmonitor_dataref true d).2 = true ↔ d.monitored = 1) ∧
    (d.monitored = 1 → (unmonitor_dataref true d).1.monitored = 0) ∧
    (1 ≤ d.monitored → (monitor_dataref true d).2 = false) ∧
    (2 ≤ d.monitored → (unmonitor_dataref true d).2 = false) := by
  constructor
  · simp [monitor_dataref, Dataref.is_monitored, hid]
    omega
  constructor
  · simp [monitor_dataref, Dataref.inc_monitor]
  constructor
  · by_cases h1 : d.monitored = 1
    · simp [unmonitor_dataref, Dataref.is_monitored, Dataref.dec_monitor, h1, hid]
    · refine iff_of_false ?_ h1
      by_cases hm : d.monitored > 0
      · have hm2 : d.monitored - 1 > 0 := by omega
        simp [unmonitor_dataref, Dataref.is_monitored, Dataref.dec_monitor, hm, hm2]
      · simp [unmonitor_dataref, Dataref.is_monitored, hm]
  constructor
  · intro h1
    simp [unmonitor_dataref, Dataref.is_monitored, Dataref.dec_monitor, h1]
  constructor
  · intro h1
    have hm : d.monitored > 0 := by omega
    simp [monitor_dataref, Dataref.is_monitored, hm]
  · intro h2
    have hm : d.monitored > 0 := by omega
    have hm2 : d.monitored - 1 > 0 := by omega
    simp [unmonitor_dataref, Dataref.is_monitored, Dataref.dec_monitor, hm, hm2]

/-- Closed witness for C3: a fresh dataref subscribes on its first
`monitor()` and the second `monitor()` sends nothing. -/
theorem monitor_wire_traffic_on_transitions_witness :
    (monitor_dataref true (Dataref.mk_dataref Int "sim/x" (some 1) false none false)).2
      = true ∧
    (monitor_dataref true
      (monitor_dataref true
        (Dataref.mk_dataref Int "sim/x" (some 1) false none false)).1).2 = false := by
  constructor
  · exact (monitor_wire_traffic_on_transitions
      (Dataref.mk_dataref Int "sim/x" (some 1) false none false)
      (by decide) (by decide)).1.mpr rfl
  · exact (monitor_wire_traffic_on_transitions
      (monitor_dataref true
        (Dataref.mk_dataref Int "sim/x" (some 1) false none false)).1
      (by decide) (by decide)).2.2.2.2.1 (by decide)

/-! ## Claim C4 — two distinct instances of the same path

In the source the monitor reference count is the per-object field
`Dataref._monitored`; two distinct `Dataref` instances for the same path do
not share it, so the claimed sharing of one wire subscription fails. -/

/-- C4 counterexample: two fresh `Dataref` instances for the same path
`"sim/x"` (same identifier 42) each issue a wire subscribe on their own
first `monitor()` — two subscribes in total, where the claim demands
exactly one — and unmonitoring the first instance already issues a wire
unsubscribe, where the claim demands that the subscription stay active. -/
theorem two_instances_same_path_counterexample :
    (monitor_dataref true
      (Dataref.mk_dataref Int "sim/x" (some 42) false none false)).2 = true ∧
    (monitor_dataref true
      (Dataref.mk_dataref Int "sim/x" (some 42) false none false)).2 = true ∧
    (unmonitor_dataref true
      (monitor_dataref true
        (Dataref.mk_dataref Int "sim/x" (some 42) false none false)).1).2 = true := by
  refine ⟨rfl, rfl, rfl⟩

/-- C4 amended: the monitor reference count lives on each `Dataref`
instance. For two distinct instances of the same path, each instance's
first `monitor()` issues its own wire subscribe (two in total), and
unmonitoring either instance issues a wire unsubscribe as soon as that
instance's own count returns to 0 — so unmonitoring the first instance
already sends one unsubscribe and unmonitoring the second sends another. -/
theorem two_instances_same_path_amended {α : Type} (d1 d2 : Dataref α)
    (i : Int) (h1 : d1.monitored = 0) (h2 : d2.monitored = 0)
    (hi1 : d1.ident = some i) (hi2 : d2.ident = some i) :
    (monitor_dataref true d1).2 = true ∧
    (monitor_dataref true d2).2 = true ∧
    (unmonitor_dataref true (monitor_dataref true d1).1).2 = true ∧
    (unmonitor_dataref true (monitor_dataref true d2).1).2 = true := by
  refine ⟨?_, ?_, ?_, ?_⟩ <;>
    simp [monitor_dataref, unmonitor_dataref, Dataref.is_monitored,
      Dataref.inc_monitor, Dataref.dec_monitor, h1, h2, hi1, hi2]

/-- Closed witness for the amended C4 at two concrete fresh instances. -/
theorem two_instances_same_path_amended_witness :
    (monitor_dataref true
      (Dataref.mk_dataref Int "sim/x" (some 42) false none false)).2 = true ∧
    (monitor_dataref true
      (Dataref.mk_dataref Int "sim/x" (some 42) false none true)).2 = true ∧
    (unmonitor_dataref true
      (monitor_dataref true
        (Dataref.mk_dataref Int "sim/x" (some 42) false none false)).1).2 = true ∧
    (unmonitor_dataref true
      (monitor_dataref true
        (Dataref.mk_dataref Int "sim/x" (some 42) false none true)).1).2 = true :=
  two_instances_same_path_amended
    (Dataref.mk_dataref Int "sim/x" (some 42) false none false)
    (Dataref.mk_dataref Int "sim/x" (some 42) false none true)
    42 rfl rfl rfl rfl

/-! ## Claim C1 — array payload reconciliation against the index history -/

/-- C1 counterexample: with index-set history `[[1,2],[1,5,7]]` (most
recent last), current indices `[1,5,7,9]` and an inbound payload of
length 2, the history contains a set of matching length (`[1,2]`), yet
the receive handler drops the update (`none`): it never searches the
history, it examines only `last_indices` (`[1,5,7]`, of length 3). -/
theorem ws_array_update_history_search_counterexample :
    ws_array_update
      { name := "sim/arr", ident := 7, value_type := "float_array"
        is_writable := true, indices := [1, 5, 7, 9]
        indices_history := [[1, 2], [1, 5, 7]], indicesRequested := false }
      [10, 20] = none ∧
    ∃ h ∈ ({ name := "sim/arr", ident := 7, value_type := "float_array"
             is_writable := true, indices := [1, 5, 7, 9]
             indices_history := [[1, 2], [1, 5, 7]], indicesRequested := false }
            : DatarefMeta).indices_history,
      h.length = ([10, 20] : List Int).length := by
  decide

/-- C1 amended: when an inbound array payload's length differs from the
current index set, the receive handler consults only the single most
recently saved index set (`last_indices`): if that one set's length equals
the payload length, payload values are zipped positionally against it (and
update callbacks fire for those index/value pairs); otherwise the update
is dropped with a warning and no callback fires, even when an older
retained set of matching length exists in the history. -/
theorem ws_array_update_uses_last_saved_set (m : DatarefMeta)
    (value : List Int) (hcur : value.length ≠ m.indices.length) :
    (value.length = m.last_indices.length →
      ws_array_update m value = some (m.last_indices.zip value)) ∧
    (value.length ≠ m.last_indices.length → ws_array_update m value = none) := by
  constructor <;> intro h
  · simp only [ws_array_update]
    rw [if_pos hcur, if_neg (fun hn => hn h)]
  · simp only [ws_array_update]
    rw [if_pos hcur, if_pos h]

/-- Closed witness for the amended C1, which is also the reconciliation
example of the specification: history `[[1,5,7],[1,2]]` (most recent
last) and a payload of length 2 pair the values with `[1,2]`. -/
theorem ws_array_update_uses_last_saved_set_witness :
    ws_array_update
      { name := "sim/arr", ident := 7, value_type := "float_array"
        is_writable := true, indices := [1, 5, 7, 9]
        indices_history := [[1, 5, 7], [1, 2]], indicesRequested := false }
      [10, 20] = some [(1, 10), (2, 20)] := by
  rw [(ws_array_update_uses_last_saved_set
      { name := "sim/arr", ident := 7, value_type := "float_array"
        is_writable := true, indices := [1, 5, 7, 9]
        indices_history := [[1, 5, 7], [1, 2]], indicesRequested := false }
      [10, 20] (by decide)).1 (by decide)]
  decide

/-! ## Claim C2 — pushing the previous index list into the history

`save_indices` appends to `indices_history` only when
`_indices_requested` is true, but `_indices_requested` is initialized
`False` in `DatarefMeta.__init__` and no statement anywhere in the
package ever sets it, so the push never happens.  The code's own comment
on `remove_index` ("Hence the historical storage of requested indices")
and the reconciliation path in `ws_listener` both rely on the history
being populated, so this is a slip in the code, not in the claim. -/

theorem bulk_step_preserves_history (m : DatarefMeta) (i : Int) (su : Bool) :
    (if su then m.append_index i else m.remove_index i).indices_history
      = m.indices_history := by
  cases su <;>
    simp only [if_true, if_false, Bool.false_eq_true,
      DatarefMeta.append_index, DatarefMeta.remove_index] <;>
    split <;> rfl

theorem bulk_step_preserves_flag (m : DatarefMeta) (i : Int) (su : Bool) :
    (if su then m.append_index i else m.remove_index i).indicesRequested
      = m.indicesRequested := by
  cases su <;>
    simp only [if_true, if_false, Bool.false_eq_true,
      DatarefMeta.append_index, DatarefMeta.remove_index] <;>
    split <;> rfl

theorem bulk_loop_preserves_history (idxs : List Int) (m : DatarefMeta)
    (su : Bool) :
    (idxs.foldl (fun acc i =>
        if su then acc.append_index i else acc.remove_index i) m).indices_history
      = m.indices_history := by
  induction idxs generalizing m with
  | nil => rfl
  | cons i is ih =>
      rw [List.foldl_cons, ih, bulk_step_preserves_history]

theorem bulk_loop_preserves_flag (idxs : List Int) (m : DatarefMeta)
    (su : Bool) :
    (idxs.foldl (fun acc i =>
        if su then acc.append_index i else acc.remove_index i) m).indicesRequested
      = m.indicesRequested := by
  induction idxs generalizing m with
  | nil => rfl
  | cons i is ih =>
      rw [List.foldl_cons, ih, bulk_step_preserves_flag]

/-- C2 evaluated on the code: every bulk subscribe or unsubscribe on a
freshly created meta (as `Cache.meta` creates them) leaves
`indices_history` empty — in particular after the bulk subscribe of
indices `[3,7]` the current index list has been replaced by `[3,7]` but
the previous index list `[]` was never pushed, and no operation of the
bulk path ever changes the `_indices_requested` guard, so the history
stays empty forever. The claim (and the spec) require the previous list
to be the last history element after every such operation. -/
theorem register_bulk_never_pushes_history :
    (∀ (name : String) (ident : Int) (vt : String) (iw : Bool)
       (idxs : List Int) (su : Bool),
       (register_bulk_array_group (DatarefMeta.mk_meta name ident vt iw)
          idxs su).indices_history = []) ∧
    (register_bulk_array_group
        (DatarefMeta.mk_meta "sim/arr" 7 "float_array" true)
        [3, 7] true).indices = [3, 7] ∧
    ∀ (m : DatarefMeta) (idxs : List Int) (su : Bool),
      (register_bulk_array_group m idxs su).indicesRequested
        = m.indicesRequested := by
  refine ⟨?_, by decide, ?_⟩
  · intro name ident vt iw idxs su
    unfold register_bulk_array_group
    rw [bulk_loop_preserves_history]
    simp [DatarefMeta.save_indices, DatarefMeta.mk_meta]
  · intro m idxs su
    unfold register_bulk_array_group
    rw [bulk_loop_preserves_flag]
    unfold DatarefMeta.save_indices
    split <;> rfl

/-! ## Claim C7 — cache reload skipped within the minimum uptime interval -/

/-- C7: a reload records the simulator uptime it ran at, and a second
`reload_caches` call without `force`, made when fewer than
`MINTIME_BETWEEN_RELOAD = 10` seconds of simulator uptime have elapsed
since that recorded time, returns the state unchanged — the caches are not
replaced and no further full-table fetch is issued (`fetchCount` is
unchanged) — so reloading twice within the interval equals reloading
once. -/
theorem reload_caches_skip_within_interval (s : CacheState) (t0 t1 : Int)
    (isV2 : Bool) (ht0 : t0 ≠ 0) (hlt : t1 - t0 < 10) :
    (reload_caches s true (some t0) isV2).lastUpdated = t0 ∧
    reload_caches (reload_caches s true (some t0) isV2) false (some t1) isV2
      = reload_caches s true (some t0) isV2 ∧
    (reload_caches (reload_caches s true (some t0) isV2) false
        (some t1) isV2).fetchCount
      = (reload_caches s true (some t0) isV2).fetchCount := by
  have h1 : (reload_caches s true (some t0) isV2).lastUpdated = t0 := by
    simp [reload_caches]
  have h2 : reload_caches (reload_caches s true (some t0) isV2) false
      (some t1) isV2 = reload_caches s true (some t0) isV2 := by
    generalize hs1 : reload_caches s true (some t0) isV2 = s1
    rw [hs1] at h1
    simp [reload_caches, h1, ht0, hlt]
  exact ⟨h1, h2, by rw [h2]⟩

/-- Closed witness for C7: reload at uptime 5, then again at uptime 9. -/
theorem reload_caches_skip_within_interval_witness :
    reload_caches (reload_caches ⟨0, none, none, 0⟩ true (some 5) true)
        false (some 9) true
      = reload_caches ⟨0, none, none, 0⟩ true (some 5) true :=
  (reload_caches_skip_within_interval ⟨0, none, none, 0⟩ 5 9 true
    (by decide) (by decide)).2.1

/-! ## Claim C8 — strictly increasing request ids and pending placeholders -/

/-- C8: every successful `send` draws the request id `req_number + 1`,
strictly greater than every id the client assigned before (given the
invariant that all previously assigned ids are bounded by the counter,
which holds initially and is preserved), stores the placeholder
`(req_id, none)` in the pending-request map before the frame goes out,
and tags the outbound frame with that id. -/
theorem ws_send_fresh_monotone_id (s : WsClientState)
    (payload : List (String × String)) (s2 : WsClientState) (r : Nat)
    (hinv : reqInv s) (hsend : ws_send s payload = (s2, some r)) :
    r = s.reqNumber + 1 ∧ s2.reqNumber = s.reqNumber + 1 ∧
    (∀ j ∈ assignedIds s, j < r) ∧ (r, (none : Option Bool)) ∈ s2.requests ∧
    s2.sentFrames.head? = some (r, payload) ∧ reqInv s2 := by
  unfold ws_send at hsend
  split at hsend
  · simp at hsend
  · split at hsend
    · simp at hsend
    · simp only [Prod.mk.injEq, Option.some.injEq] at hsend
      obtain ⟨hA, hB⟩ := hsend
      subst hB
      subst hA
      refine ⟨rfl, rfl, ?_, ?_, rfl, ?_⟩
      · intro j hj
        have := hinv j hj
        omega
      · exact List.mem_cons_self _ _
      · intro j hj
        show j ≤ s.reqNumber + 1
        simp only [assignedIds, List.map_cons, List.mem_cons] at hj
        rcases hj with rfl | hj
        · exact Nat.le_refl _
        · have := hinv j hj
          omega

/-- Closed witness for C8: the first send on a fresh connected client is
assigned id 1 and stores its placeholder. -/
theorem ws_send_fresh_monotone_id_witness :
    (1, (none : Option Bool)) ∈
      (ws_send (initWsClient true)
        [("type", "dataref_subscribe_values")]).1.requests := by
  have h := ws_send_fresh_monotone_id (initWsClient true)
      [("type", "dataref_subscribe_values")]
      (ws_send (initWsClient true) [("type", "dataref_subscribe_values")]).1 1
      (by decide) (by rfl)
  exact h.2.2.2.1

/-! ## Beacon helper lemmas -/

theorem le16_roundtrip (n : Nat) (h : n < 2 ^ 16) :
    le16 (n % 256) (n / 256 % 256) = n := by
  unfold le16
  omega

theorem le32_roundtrip (n : Nat) (h : n < 2 ^ 32) :
    le32 (n % 256) (n / 256 % 256) (n / 256 / 256 % 256)
      (n / 256 / 256 / 256 % 256) = n := by
  unfold le32
  omega

theorem int32_emod_toNat_lt (v : Int) : (v % 2 ^ 32).toNat < 2 ^ 32 := by
  have h1 : 0 ≤ v % 2 ^ 32 := Int.emod_nonneg v (by norm_num)
  have h2 : v % 2 ^ 32 < 2 ^ 32 := Int.emod_lt_of_pos v (by norm_num)
  omega

theorem toInt32_roundtrip (v : Int) (h1 : -(2 ^ 31) ≤ v) (h2 : v < 2 ^ 31) :
    toInt32 ((v % 2 ^ 32).toNat) = v := by
  have h3 : 0 ≤ v % 2 ^ 32 := Int.emod_nonneg v (by norm_num)
  have h4 : v % 2 ^ 32 < 2 ^ 32 := Int.emod_lt_of_pos v (by norm_num)
  unfold toInt32
  split <;> omega

theorem takeWhile_ne_zero_append (l t : List Nat) (h : ∀ b ∈ l, b ≠ 0) :
    (l ++ 0 :: t).takeWhile (fun b => b ≠ 0) = l := by
  induction l with
  | nil => simp [List.takeWhile]
  | cons a l ih =>
      have ha : a ≠ 0 := h a (List.mem_cons_self a l)
      have ih2 := ih (fun b hb => h b (List.mem_cons_of_mem a hb))
      simp only [List.cons_append, List.takeWhile_cons]
      simp [ha]
      simpa using ih2

theorem get_beacon_decode_explicit (sender : String)
    (b5 b6 b7 b8 b9 b10 b11 b12 b13 b14 b15 b16 b17 b18 b19 b20 : Nat)
    (rest : List Nat) :
    get_beacon_decode sender
      (66 :: 69 :: 67 :: 78 :: 0 :: b5 :: b6 :: b7 :: b8 :: b9 :: b10 ::
        b11 :: b12 :: b13 :: b14 :: b15 :: b16 :: b17 :: b18 :: b19 :: b20 :: rest)
      = (if b5 = 1 ∧ b6 ≤ 2 ∧ toInt32 (le32 b7 b8 b9 b10) = 1 then
          Except.ok
            { host := sender
              port := le16 b19 b20
              hostname :=
                if 0 ∈ rest.dropLast then (rest.dropLast).takeWhile (fun b => b ≠ 0)
                else (rest.dropLast).dropLast
              xplane_version := toInt32 (le32 b11 b12 b13 b14)
              role := le32 b15 b16 b17 b18 }
         else Except.error BeaconError.versionNotSupported) := by
  simp [get_beacon_decode, beaconMagic, byteAt, beacon_hostname, List.getD]

/-! ## Claim C5 — beacon decode error classification -/

/-- C5: for any received packet long enough for `struct.unpack` to apply,
the decode returns the magic-mismatch outcome exactly when the 5-byte
header differs from `BECN\x00`, and signals the distinct
unsupported-version condition (the `XPlaneVersionNotSupported` exception)
exactly when the header is correct but the unpacked versions fall outside
major = 1, minor ≤ 2, host-id = 1 — never the generic parse error. -/
theorem get_beacon_decode_error_classes (sender : String) (packet : List Nat)
    (hlen : 21 ≤ packet.length) :
    (get_beacon_decode sender packet = Except.error BeaconError.badMagic ↔
      packet.take 5 ≠ beaconMagic) ∧
    (get_beacon_decode sender packet = Except.error BeaconError.versionNotSupported ↔
      (packet.take 5 = beaconMagic ∧
        ¬(byteAt packet 5 = 1 ∧ byteAt packet 6 ≤ 2 ∧
          toInt32 (le32 (byteAt packet 7) (byteAt packet 8) (byteAt packet 9)
            (byteAt packet 10)) = 1))) ∧
    get_beacon_decode sender packet ≠ Except.error BeaconError.shortPacket := by
  have hnl : ¬(packet.length < 21) := by omega
  by_cases hm : packet.take 5 = beaconMagic
  · by_cases hv : (byteAt packet 5 = 1 ∧ byteAt packet 6 ≤ 2 ∧
        toInt32 (le32 (byteAt packet 7) (byteAt packet 8) (byteAt packet 9)
          (byteAt packet 10)) = 1)
    · simp [get_beacon_decode, hm, hnl, hv]
    · simp [get_beacon_decode, hm, hnl, hv]
  · simp [get_beacon_decode, hm]

/-- Closed witness for C5: a packet with major version 2 (and otherwise
valid fields) raises the unsupported-version condition. -/
theorem get_beacon_decode_error_classes_witness :
    get_beacon_decode "192.168.1.2"
        (encode_beacon 2 1 1 123456 1 49000 [104, 105])
      = Except.error BeaconError.versionNotSupported := by
  exact ((get_beacon_decode_error_classes "192.168.1.2"
      (encode_beacon 2 1 1 123456 1 49000 [104, 105]) (by decide)).2.1).mpr
    (by decide)

/-! ## Claim C6 — beacon encode/decode round trip -/

/-- C6 counterexample: encoding a valid packet whose hostname `"myhost"`
is terminated by a single NUL byte (the spec's "null-terminated hostname
string") and decoding it yields the hostname `"myhos"` — the final
character is lost, because `packet[21:-1]` already strips the terminator
and `find(0)` then returns `-1`, so the slice `[0:-1]` drops one more
byte. -/
theorem beacon_roundtrip_counterexample :
    get_beacon_decode "192.168.1.2"
        (encode_beacon 1 1 1 123456 1 49000 [109, 121, 104, 111, 115, 116])
      = Except.ok
          { host := "192.168.1.2", port := 49000
            hostname := [109, 121, 104, 111, 115]
            xplane_version := 123456, role := 1 } ∧
    ([109, 121, 104, 111, 115] : List Nat) ≠ [109, 121, 104, 111, 115, 116] :=
  ⟨rfl, by decide⟩

/-- C6 amended: for every valid beacon packet whose hostname field is
null-padded — the name is followed by at least two NUL bytes, as
X-Plane's fixed-size `computer_name` buffer produces — encoding the
fields (major = 1, minor ≤ 2, host-id = 1, any int32 simulator version,
uint32 role, uint16 port, NUL-free hostname) and decoding the resulting
packet recovers identical host, port, hostname, version and role. -/
theorem beacon_roundtrip_padded (sender : String) (minor : Nat) (simVer : Int)
    (role port : Nat) (hostname : List Nat)
    (hminor : minor ≤ 2)
    (hsim1 : -(2 ^ 31) ≤ simVer) (hsim2 : simVer < 2 ^ 31)
    (hrole : role < 2 ^ 32) (hport : port < 2 ^ 16)
    (hhn : ∀ b ∈ hostname, b ≠ 0) :
    get_beacon_decode sender
        (encode_beacon_padded 1 minor 1 simVer role port hostname)
      = Except.ok
          { host := sender, port := port, hostname := hostname
            xplane_version := simVer, role := role } := by
  have hpack : encode_beacon_padded 1 minor 1 simVer role port hostname
      = 66 :: 69 :: 67 :: 78 :: 0 :: 1 :: minor :: 1 :: 0 :: 0 :: 0 ::
        ((simVer % 2 ^ 32).toNat % 256) :: ((simVer % 2 ^ 32).toNat / 256 % 256) ::
        ((simVer % 2 ^ 32).toNat / 256 / 256 % 256) ::
        ((simVer % 2 ^ 32).toNat / 256 / 256 / 256 % 256) ::
        (role % 256) :: (role / 256 % 256) :: (role / 256 / 256 % 256) ::
        (role / 256 / 256 / 256 % 256) ::
        (port % 256) :: (port / 256 % 256) :: (hostname ++ [0, 0]) := by
    simp [encode_beacon_padded, beaconMagic, int32bytes, le32bytes, le16bytes]
  rw [hpack, get_beacon_decode_explicit]
  rw [if_pos ⟨rfl, hminor, by decide⟩]
  have hver : toInt32 (le32 ((simVer % 2 ^ 32).toNat % 256)
      ((simVer % 2 ^ 32).toNat / 256 % 256)
      ((simVer % 2 ^ 32).toNat / 256 / 256 % 256)
      ((simVer % 2 ^ 32).toNat / 256 / 256 / 256 % 256)) = simVer := by
    rw [le32_roundtrip _ (int32_emod_toNat_lt simVer)]
    exact toInt32_roundtrip simVer hsim1 hsim2
  have hhost : (if 0 ∈ (hostname ++ [0, 0]).dropLast then
        ((hostname ++ [0, 0]).dropLast).takeWhile (fun b => b ≠ 0)
      else ((hostname ++ [0, 0]).dropLast).dropLast) = hostname := by
    have hdl : (hostname ++ [0, 0]).dropLast = hostname ++ [0] := by
      have h2 : hostname ++ [0, 0] = (hostname ++ [0]) ++ [0] := by simp
      rw [h2, List.dropLast_concat]
    rw [hdl]
    rw [if_pos (by simp)]
    have h3 : hostname ++ [0] = hostname ++ 0 :: ([] : List Nat) := rfl
    rw [h3, takeWhile_ne_zero_append hostname [] hhn]
  rw [le16_roundtrip port hport, le32_roundtrip role hrole, hver, hhost]

/-- Closed witness for the amended C6: the padded encoding of `"myhost"`
decodes back to exactly `"myhost"` with all other fields intact. -/
theorem beacon_roundtrip_padded_witness :
    get_beacon_decode "192.168.1.2"
        (encode_beacon_padded 1 1 1 123456 1 49000 [109, 121, 104, 111, 115, 116])
      = Except.ok
          { host := "192.168.1.2", port := 49000
            hostname := [109, 121, 104, 111, 115, 116]
            xplane_version := 123456, role := 1 } :=
  beacon_roundtrip_padded "192.168.1.2" 1 123456 1 49000
    [109, 121, 104, 111, 115, 116]
    (by decide) (by decide) (by decide) (by decide) (by decide) (by decide)
